import Mathlib

/-!
Verification of the input/controls layer of `need_4_fruits`
(`src/controls.rs`): the dash-direction accumulator, the keyboard-to-movement
mapper, and the cursor/aim tracker.

Embedding notes.
* The direction and axis values in the source are `f32`, but every value they
  ever hold is a small integer obtained by adding `±1.0` and `0.0`, on which
  `f32` arithmetic is exact; we embed them as `Int`.
* World-space cursor coordinates come from camera matrix arithmetic; we embed
  them as `ℚ` and keep the camera's ndc-to-world map as a function parameter
  (it is engine state external to this module).
* The Bevy `Timer` inside `Dash` is engine state this module never inspects
  (only `apply_time` ticks it); we embed it as an abstract `Nat` value.
* Bevy `Commands` are deferred: entities spawned or despawned during a system
  run are applied after it, so the transform-update loop at the end of
  `cursor_system` sees exactly the aim entities that existed on entry.
-/

namespace Controls

/-- The direction of a dash (`DashDirection` in `controls.rs`). -/
structure DashDirection where
  x : Int
  y : Int
deriving Repr, DecidableEq

/-- Rust `DashDirection::add`: componentwise vector addition. -/
def DashDirection.add (self to_add : DashDirection) : DashDirection :=
  { x := self.x + to_add.x
    y := self.y + to_add.y }

/-- Rust `DashDirection::is_empty`: both components are zero. -/
def DashDirection.is_empty (self : DashDirection) : Bool :=
  self.x == 0 && self.y == 0

/-- Rust `Default for DashDirection`: the zero vector. -/
def DashDirection.default : DashDirection :=
  { x := 0, y := 0 }

/-- The `Dash` resource (`controls.rs`).  `duration` abstracts the Bevy
`Timer`, whose internal state this module never reads. -/
structure Dash where
  trying_to_dash : Bool
  is_dashing : Bool
  dashed : Nat
  direction : DashDirection
  duration : Nat
deriving Repr, DecidableEq

/-- Rust `Default for Dash`: all-zero / all-false state. -/
def Dash.default : Dash :=
  { trying_to_dash := false
    is_dashing := false
    dashed := 0
    direction := { x := 0, y := 0 }
    duration := 0 }

/-- The arrow-key input snapshot seen by `dash_direction_arrows`: for each of
the four arrow keys, whether `is_just_pressed` (edge-triggered) holds this
frame. -/
structure ArrowInput where
  up : Bool
  down : Bool
  left : Bool
  right : Bool
deriving Repr, DecidableEq

/-- The `to_num` closure in `dash_direction_arrows`: just-pressed becomes `1`,
otherwise `0`. -/
def to_num (b : Bool) : Int :=
  if b then 1 else 0

/-- Rust `dash_direction_arrows` (`controls.rs` lines 226–288): build one unit
vector per just-pressed arrow key, fold them with `add` starting from the
stored direction, and if the result is non-empty set `trying_to_dash` and
store it; otherwise leave the resource untouched. -/
def dash_direction_arrows (kb : ArrowInput) (dash : Dash) : Dash :=
  let up : DashDirection := { y := to_num kb.up, x := 0 }
  let down : DashDirection := { y := -to_num kb.down, x := 0 }
  let left : DashDirection := { y := 0, x := -to_num kb.left }
  let right : DashDirection := { y := 0, x := to_num kb.right }
  let direction : DashDirection :=
    [up, down, left, right].foldl
      (fun direction udlr => direction.add udlr) dash.direction
  if !direction.is_empty then
    { dash with trying_to_dash := true, direction := direction }
  else
    dash

/-- Iterating `dash_direction_arrows` over a sequence of per-frame arrow-key
snapshots (one engine frame per list element). -/
def dash_steps (inputs : List ArrowInput) (dash : Dash) : Dash :=
  inputs.foldl (fun d kb => dash_direction_arrows kb d) dash

/-- The `Movement` resource (`controls.rs`). -/
structure Movement where
  x : Int
  jump : Bool
  jumped : Nat
  is_fast_falling : Bool
  lock_x : Bool
deriving Repr, DecidableEq

/-- Rust `Default for Movement`. -/
def Movement.default : Movement :=
  { x := 0
    jump := false
    jumped := 0
    is_fast_falling := false
    lock_x := false }

/-- The keyboard snapshot seen by `keyboard_controls_system`: `up` is sampled
with `is_just_pressed` (edge-triggered), the others with `is_pressed`
(level-triggered). -/
structure KeyInput where
  up_just_pressed : Bool
  down_pressed : Bool
  right_pressed : Bool
  left_pressed : Bool
deriving Repr, DecidableEq

/-- Rust `keyboard_controls_system` (`controls.rs` lines 122–149): set `jump` on an
up edge-press, set `is_fast_falling` while down is held, and recompute the
horizontal axis from scratch as (+1 if right held) + (−1 if left held). -/
def keyboard_controls_system (keyboard : KeyInput) (movement : Movement) :
    Movement :=
  let m1 :=
    if keyboard.up_just_pressed then { movement with jump := true }
    else movement
  let m2 :=
    if keyboard.down_pressed then { m1 with is_fast_falling := true }
    else m1
  let sides : Int := 0
  let sides := if keyboard.right_pressed then sides + 1 else sides
  let sides := if keyboard.left_pressed then sides - 1 else sides
  { m2 with x := sides }

/-- The `MouseCoordinates` resource (`controls.rs`): last known world-space
cursor position. -/
structure MouseCoordinates where
  x : ℚ
  y : ℚ
deriving Repr, DecidableEq

/-- Rust `Default for MouseCoordinates`. -/
def MouseCoordinates.default : MouseCoordinates :=
  { x := 0, y := 0 }

/-- The window state `cursor_system` reads: `cursor_position` is `some` while
the cursor is inside the window (`Window::cursor_position` in Bevy), plus the
window's pixel dimensions. -/
structure Window where
  cursor_position : Option (ℚ × ℚ)
  width : ℚ
  height : ℚ

/-- The portion of the ECS world `cursor_system` reads and writes:
`aim_count` is the number of entities carrying the `Aim` marker component,
`aim_translation` the (x, y) translation of the aim sprite(s) present when the
system starts (a freshly spawned sprite has the default translation `(0, 0)`
and, commands being deferred, is not visited by the transform loop on its
spawn frame), and `mouse` the `MouseCoordinates` resource. -/
structure CursorState where
  aim_count : Nat
  aim_translation : ℚ × ℚ
  mouse : MouseCoordinates
deriving Repr, DecidableEq

/-- The body of `cursor_system` after the camera and window lookups
(`controls.rs` lines 180–223).  `ndc_to_world` stands for the camera map
`(camera_transform.compute_matrix() * camera.projection_matrix().inverse())
.project_point3(ndc.extend(-1.0)).truncate()`, engine state external to this
module.  In-window: spawn an aim sprite when the single-result query fails
(count ≠ 1), convert the screen position to ndc and then to world space, and
store it in `MouseCoordinates`.  Out-of-window: despawn the aim sprite when
the single-result query succeeds (count = 1).  Either way, the final loop
repositions every aim sprite present on entry to the stored coordinates. -/
def cursor_system_body (ndc_to_world : ℚ × ℚ → ℚ × ℚ) (wnd : Window)
    (st : CursorState) : CursorState :=
  match wnd.cursor_position with
  | some screen_pos =>
    let aim_count := if st.aim_count ≠ 1 then st.aim_count + 1 else st.aim_count
    let window_size : ℚ × ℚ := (wnd.width, wnd.height)
    let ndc : ℚ × ℚ :=
      (screen_pos.1 / window_size.1 * 2 - 1, screen_pos.2 / window_size.2 * 2 - 1)
    let world_pos := ndc_to_world ndc
    let mouse : MouseCoordinates := { x := world_pos.1, y := world_pos.2 }
    let aim_translation :=
      if 1 ≤ st.aim_count then (mouse.x, mouse.y) else (0, 0)
    { aim_count := aim_count, aim_translation := aim_translation, mouse := mouse }
  | none =>
    let aim_count := if st.aim_count = 1 then st.aim_count - 1 else st.aim_count
    let aim_translation :=
      if 1 ≤ st.aim_count then (st.mouse.x, st.mouse.y) else st.aim_translation
    { aim_count := aim_count, aim_translation := aim_translation, mouse := st.mouse }

/-- Rust `cursor_system` (`controls.rs` lines 155–224).  `cameras` is the result of
the `Query<(&Camera, &GlobalTransform), With<MainCamera>>`, each camera
represented by its ndc-to-world map; `q_camera.single()` panics unless the
query yields exactly one item, modelled by returning `none`.  `wnd_lookup` is
the result of `wnds.get(id)` / `wnds.get_primary()`, whose `unwrap` likewise
panics on `none`. -/
def cursor_system (cameras : List (ℚ × ℚ → ℚ × ℚ)) (wnd_lookup : Option Window)
    (st : CursorState) : Option CursorState :=
  match cameras with
  | [camera] =>
    match wnd_lookup with
    | some wnd => some (cursor_system_body camera wnd st)
    | none => none
  | _ => none

/-! ### Characterization of `dash_direction_arrows` (shared helper) -/

/-- Helper: one invocation of `dash_direction_arrows` computes the candidate
direction `stored + (right−left, up−down)` and either stores it with
`trying_to_dash := true` (non-zero case) or returns the state unchanged
(zero case). -/
theorem dash_direction_arrows_eq (kb : ArrowInput) (dash : Dash) :
    dash_direction_arrows kb dash =
      if dash.direction.x + ((if kb.left then -1 else 0) + (if kb.right then 1 else 0)) = 0 ∧
         dash.direction.y + ((if kb.up then 1 else 0) + (if kb.down then -1 else 0)) = 0
      then dash
      else { dash with
              trying_to_dash := true
              direction :=
                ⟨dash.direction.x + ((if kb.left then -1 else 0) + (if kb.right then 1 else 0)),
                 dash.direction.y + ((if kb.up then 1 else 0) + (if kb.down then -1 else 0))⟩ } := by
  obtain ⟨u, d, l, r⟩ := kb
  cases u <;> cases d <;> cases l <;> cases r <;>
    simp [dash_direction_arrows, to_num, DashDirection.add, DashDirection.is_empty] <;>
    split <;> split <;> simp_all

/-- Helper: one invocation of `dash_direction_arrows` moves each stored
direction component by at most 1 in absolute value. -/
theorem dash_direction_arrows_step_bound (kb : ArrowInput) (dash : Dash) :
    ((dash_direction_arrows kb dash).direction.x).natAbs ≤
        (dash.direction.x).natAbs + 1 ∧
      ((dash_direction_arrows kb dash).direction.y).natAbs ≤
        (dash.direction.y).natAbs + 1 := by
  rw [dash_direction_arrows_eq]
  obtain ⟨u, d, l, r⟩ := kb
  cases u <;> cases d <;> cases l <;> cases r <;> simp <;> split <;> simp <;> omega

/-- Helper: over a list of frames, each stored direction component grows by at
most the number of frames in absolute value. -/
theorem dash_steps_bound (inputs : List ArrowInput) (dash : Dash) :
    ((dash_steps inputs dash).direction.x).natAbs ≤
        (dash.direction.x).natAbs + inputs.length ∧
      ((dash_steps inputs dash).direction.y).natAbs ≤
        (dash.direction.y).natAbs + inputs.length := by
  induction inputs generalizing dash with
  | nil => simp [dash_steps]
  | cons kb rest ih =>
    have h1 := dash_direction_arrows_step_bound kb dash
    have h2 := ih (dash_direction_arrows kb dash)
    simp only [dash_steps, List.foldl_cons, List.length_cons] at h2 ⊢
    constructor <;> omega

/-! ### Claims about the dash-direction accumulator -/

/-- C1: for every stored dash direction and every combination of arrow
edge-presses, the routine computes the new direction as the stored one plus
the sum of the per-key unit vectors (up = (0,1), down = (0,−1),
left = (−1,0), right = (1,0)); if that direction is non-empty it sets
`trying_to_dash` and stores it, and if it is empty it leaves the stored
direction and the flag exactly as they were. -/
theorem dash_direction_arrows_accumulates (kb : ArrowInput) (dash : Dash) :
    dash_direction_arrows kb dash =
      if dash.direction.x + ((if kb.left then -1 else 0) + (if kb.right then 1 else 0)) = 0 ∧
         dash.direction.y + ((if kb.up then 1 else 0) + (if kb.down then -1 else 0)) = 0
      then dash
      else { dash with
              trying_to_dash := true
              direction :=
                ⟨dash.direction.x + ((if kb.left then -1 else 0) + (if kb.right then 1 else 0)),
                 dash.direction.y + ((if kb.up then 1 else 0) + (if kb.down then -1 else 0))⟩ } :=
  dash_direction_arrows_eq kb dash

/-- C2 counterexample: the state reached from the default dash state by the
frame sequence (right just-pressed), (no arrows), (right just-pressed) is
reachable, yet its stored direction has x-component 2, outside {−1, 0, 1}. -/
theorem dash_direction_component_two_reachable :
    (dash_steps
        [⟨false, false, false, true⟩, ⟨false, false, false, false⟩,
          ⟨false, false, false, true⟩] Dash.default).direction.x = 2 ∧
      ¬ ((2 : Int) = -1 ∨ (2 : Int) = 0 ∨ (2 : Int) = 1) := by
  decide

/-- C2 amended: starting from the default all-zero dash state and running the
dash-direction routine for any list of frames, each stored direction
component is an integer of absolute value at most the number of frames; the
components are not confined to {−1, 0, 1}. -/
theorem dash_reachable_direction_bound (inputs : List ArrowInput) :
    ((dash_steps inputs Dash.default).direction.x).natAbs ≤ inputs.length ∧
      ((dash_steps inputs Dash.default).direction.y).natAbs ≤ inputs.length := by
  have h := dash_steps_bound inputs Dash.default
  simpa [Dash.default] using h

/-- C3 counterexample: with prior state `trying_to_dash = true`, stored
direction (1, 0), and a left edge-press (so stored + sum = (0, 0)), the
routine leaves `trying_to_dash` at `true`, not `false` as the claim states. -/
theorem dash_zero_sum_flag_not_false :
    ¬ ((dash_direction_arrows ⟨false, false, true, false⟩
          { trying_to_dash := true, is_dashing := false, dashed := 0,
            direction := ⟨1, 0⟩, duration := 0 }).trying_to_dash = false) := by
  decide

/-- C3 amended: for every prior dash state with stored direction D and every
set of arrow edge-presses whose unit vectors sum with D to the zero vector,
the routine leaves the whole dash state unchanged: `trying_to_dash` keeps its
prior value (it is not forced to `false`) and the direction still equals D. -/
theorem dash_zero_sum_leaves_state (kb : ArrowInput) (dash : Dash)
    (hx : dash.direction.x + ((if kb.left then -1 else 0) + (if kb.right then 1 else 0)) = 0)
    (hy : dash.direction.y + ((if kb.up then 1 else 0) + (if kb.down then -1 else 0)) = 0) :
    dash_direction_arrows kb dash = dash := by
  rw [dash_direction_arrows_eq]
  simp [hx, hy]

/-- C3 witness: prior direction (1, 0) and a left edge-press sum to zero, and
the state (here with `trying_to_dash = false`) is returned unchanged. -/
theorem dash_zero_sum_leaves_state_witness :
    dash_direction_arrows ⟨false, false, true, false⟩
        { Dash.default with direction := ⟨1, 0⟩ } =
      { Dash.default with direction := ⟨1, 0⟩ } :=
  dash_zero_sum_leaves_state ⟨false, false, true, false⟩
    { Dash.default with direction := ⟨1, 0⟩ } (by decide) (by decide)

/-- C9: one invocation of the dash-direction routine leaves `is_dashing`,
`dashed` and the `duration` timer unchanged; only `trying_to_dash` and
`direction` are ever written. -/
theorem dash_direction_arrows_writes_only_try_direction
    (kb : ArrowInput) (dash : Dash) :
    (dash_direction_arrows kb dash).is_dashing = dash.is_dashing ∧
      (dash_direction_arrows kb dash).dashed = dash.dashed ∧
      (dash_direction_arrows kb dash).duration = dash.duration := by
  rw [dash_direction_arrows_eq]
  by_cases h :
      dash.direction.x + ((if kb.left then -1 else 0) + (if kb.right then 1 else 0)) = 0 ∧
        dash.direction.y + ((if kb.up then 1 else 0) + (if kb.down then -1 else 0)) = 0
  · simp [h]
  · simp [h]

/-! ### Claims about the keyboard-to-movement mapper -/

/-- C4: after the keyboard-to-movement routine runs, the stored horizontal
axis is +1 exactly when right is held and left is not, −1 exactly when left
is held and right is not, and 0 otherwise (including both held); the
right-hand side does not mention the prior movement state, so the result
replaces the previously stored axis rather than accumulating onto it. -/
theorem keyboard_controls_axis (keyboard : KeyInput) (movement : Movement) :
    (keyboard_controls_system keyboard movement).x =
      if keyboard.right_pressed ∧ ¬ keyboard.left_pressed then 1
      else if keyboard.left_pressed ∧ ¬ keyboard.right_pressed then -1
      else 0 := by
  obtain ⟨u, d, r, l⟩ := keyboard
  cases u <;> cases d <;> cases r <;> cases l <;>
    simp [keyboard_controls_system]

/-- C5: the keyboard-to-movement routine sets the jump flag to true exactly
when the up key was newly pressed this frame; otherwise it leaves the flag at
its prior value, and in particular it never resets a true flag to false. -/
theorem keyboard_controls_jump (keyboard : KeyInput) (movement : Movement) :
    (keyboard_controls_system keyboard movement).jump =
      if keyboard.up_just_pressed then true else movement.jump := by
  obtain ⟨u, d, r, l⟩ := keyboard
  cases u <;> cases d <;> cases r <;> cases l <;>
    simp [keyboard_controls_system]

/-! ### Claims about the cursor/aim tracker -/

/-- C6: if at most one aim-marker entity exists before the cursor routine
runs, at most one exists afterwards: in-window frames spawn a marker only
when none exists, and out-of-window frames despawn the marker when present. -/
theorem cursor_system_marker_at_most_one (cameras : List (ℚ × ℚ → ℚ × ℚ))
    (wnd_lookup : Option Window) (st st' : CursorState)
    (hcount : st.aim_count ≤ 1)
    (hrun : cursor_system cameras wnd_lookup st = some st') :
    st'.aim_count ≤ 1 := by
  match cameras, wnd_lookup, hrun with
  | [camera], some wnd, hrun =>
    simp only [cursor_system, Option.some.injEq] at hrun
    subst hrun
    unfold cursor_system_body
    cases wnd.cursor_position <;> simp <;> split <;> omega

/-- C6 witness: from a state with no marker and the cursor in the window, the
routine yields a state with exactly one marker, which is at most one. -/
theorem cursor_system_marker_at_most_one_witness :
    (⟨1, (0, 0), ⟨-1, -1⟩⟩ : CursorState).aim_count ≤ 1 :=
  cursor_system_marker_at_most_one [fun p => p] (some ⟨some (0, 0), 1, 1⟩)
    ⟨0, (0, 0), ⟨0, 0⟩⟩ ⟨1, (0, 0), ⟨-1, -1⟩⟩ (by decide)
    (by simp [cursor_system, cursor_system_body])

/-- C7: on a frame where the cursor is outside the window, the routine leaves
the stored world-space `MouseCoordinates` unchanged, despawns the marker when
exactly one is present, and otherwise leaves the marker count unchanged; the
branch returns normally (`some`), not an error. -/
theorem cursor_system_outside_keeps_coords (camera : ℚ × ℚ → ℚ × ℚ)
    (wnd : Window) (st st' : CursorState)
    (hcursor : wnd.cursor_position = none)
    (hrun : cursor_system [camera] (some wnd) st = some st') :
    st'.mouse = st.mouse ∧
      (st.aim_count = 1 → st'.aim_count = 0) ∧
      (st.aim_count ≠ 1 → st'.aim_count = st.aim_count) := by
  simp only [cursor_system, Option.some.injEq] at hrun
  subst hrun
  unfold cursor_system_body
  rw [hcursor]
  refine ⟨rfl, ?_, ?_⟩ <;> intro h <;> simp [h]

/-- C7 witness: with the cursor outside the window and one marker present,
the stored coordinates stay (2, 3) and the marker count drops to zero. -/
theorem cursor_system_outside_keeps_coords_witness :
    (⟨0, (2, 3), ⟨2, 3⟩⟩ : CursorState).mouse =
        (⟨1, (9, 9), ⟨2, 3⟩⟩ : CursorState).mouse ∧
      ((⟨1, (9, 9), ⟨2, 3⟩⟩ : CursorState).aim_count = 1 →
        (⟨0, (2, 3), ⟨2, 3⟩⟩ : CursorState).aim_count = 0) ∧
      ((⟨1, (9, 9), ⟨2, 3⟩⟩ : CursorState).aim_count ≠ 1 →
        (⟨0, (2, 3), ⟨2, 3⟩⟩ : CursorState).aim_count =
          (⟨1, (9, 9), ⟨2, 3⟩⟩ : CursorState).aim_count) :=
  cursor_system_outside_keeps_coords (fun p => p) ⟨none, 4, 4⟩
    ⟨1, (9, 9), ⟨2, 3⟩⟩ ⟨0, (2, 3), ⟨2, 3⟩⟩ (by rfl) (by rfl)

/-- C8: the cursor routine assumes exactly one main-camera entity: with a
single camera (and a resolved window) the lookup succeeds and the routine
returns normally, while with any other number of cameras it panics (returns
no state) instead of taking a recovery branch. -/
theorem cursor_system_single_camera_or_panic (camera : ℚ × ℚ → ℚ × ℚ)
    (cameras : List (ℚ × ℚ → ℚ × ℚ)) (wnd_lookup : Option Window)
    (wnd : Window) (st : CursorState) :
    cursor_system [camera] (some wnd) st =
        some (cursor_system_body camera wnd st) ∧
      (cameras.length ≠ 1 → cursor_system cameras wnd_lookup st = none) := by
  refine ⟨rfl, ?_⟩
  intro hlen
  match cameras with
  | [] => rfl
  | [c] => exact absurd rfl hlen
  | c₁ :: c₂ :: rest => rfl

/-- C8 witness: one camera with a resolved window returns a state; an empty
camera query panics. -/
theorem cursor_system_single_camera_or_panic_witness :
    cursor_system [fun p => p] (some ⟨some (0, 0), 1, 1⟩) ⟨0, (0, 0), ⟨0, 0⟩⟩ =
        some (cursor_system_body (fun p => p) ⟨some (0, 0), 1, 1⟩
          ⟨0, (0, 0), ⟨0, 0⟩⟩) ∧
      cursor_system [] none ⟨0, (0, 0), ⟨0, 0⟩⟩ = none :=
  ⟨(cursor_system_single_camera_or_panic (fun p => p) [] none
      ⟨some (0, 0), 1, 1⟩ ⟨0, (0, 0), ⟨0, 0⟩⟩).1,
    (cursor_system_single_camera_or_panic (fun p => p) [] none
      ⟨some (0, 0), 1, 1⟩ ⟨0, (0, 0), ⟨0, 0⟩⟩).2 (by decide)⟩

/-- C10: on every invocation where the (single) aim marker exists on entry,
the marker's translation is set to the stored `MouseCoordinates` as they
stand after the routine — including out-of-window frames, where the marker is
repositioned to the last known coordinates on the very frame its despawn is
issued. -/
theorem cursor_system_marker_tracks_mouse (cameras : List (ℚ × ℚ → ℚ × ℚ))
    (wnd_lookup : Option Window) (st st' : CursorState)
    (hcount : st.aim_count = 1)
    (hrun : cursor_system cameras wnd_lookup st = some st') :
    st'.aim_translation = (st'.mouse.x, st'.mouse.y) := by
  match cameras, wnd_lookup, hrun with
  | [camera], some wnd, hrun =>
    simp only [cursor_system, Option.some.injEq] at hrun
    subst hrun
    unfold cursor_system_body
    cases wnd.cursor_position <;> simp [hcount]

/-- C10 witness: with one marker present and the cursor out of the window,
the resulting state's marker translation equals its stored coordinates. -/
theorem cursor_system_marker_tracks_mouse_witness :
    (⟨0, (7, 8), ⟨7, 8⟩⟩ : CursorState).aim_translation =
      ((⟨0, (7, 8), ⟨7, 8⟩⟩ : CursorState).mouse.x,
        (⟨0, (7, 8), ⟨7, 8⟩⟩ : CursorState).mouse.y) :=
  cursor_system_marker_tracks_mouse [fun p => p] (some ⟨none, 2, 2⟩)
    ⟨1, (5, 5), ⟨7, 8⟩⟩ ⟨0, (7, 8), ⟨7, 8⟩⟩ (by rfl) (by rfl)

end Controls
